import Mathlib

/-!
Verification of the label-action resolution and prompt-assembly logic of the
omnivore-ai-annotations webhook handlers.

JavaScript strings are modelled as lists of characters (`JSString`), and the
string operations used by the handlers (split on a separator character,
startsWith, first-occurrence replace, trim, truthiness-based defaulting) are
defined below, each following the semantics of the corresponding JS builtin.
The handler fragments themselves (label classification, label-action
resolution, prompt assembly, dispatch, write-back label construction, the
highlight mutations) are translated from src/api/annotate.ts and from the two
handler variants in src/unnamed/part_000; definitions carrying a V suffix (or
an explicit variant marker in their doc comment) come from part_000.
-/

/-- A JavaScript string, modelled as its list of characters. -/
abbrev JSString := List Char

/-- Coerce a Lean string literal to the JSString model. -/
def jstr (s : String) : JSString := s.data

/-- Semantics of `s.split(sep)` for a one-character separator: JS always
returns at least one piece, and pieces between consecutive separators are
empty strings. -/
def splitOnChar (c : Char) : List Char → List (List Char)
  | [] => [[]]
  | x :: xs =>
    if x = c then [] :: splitOnChar c xs
    else (x :: (splitOnChar c xs).headI) :: (splitOnChar c xs).tail

/-- Semantics of `s.startsWith(pat)`. -/
def leadsWith : JSString → JSString → Bool
  | [], _ => true
  | _ :: _, [] => false
  | p :: ps, x :: xs => p == x && leadsWith ps xs

/-- Semantics of `s.replace(pat, rep)` with a string pattern: only the first
(leftmost) occurrence of `pat` is replaced; if `pat` does not occur, the
string is returned unchanged. -/
def replaceFirst (pat rep : JSString) : JSString → JSString
  | [] => if leadsWith pat [] then rep ++ ([] : JSString) else []
  | x :: xs =>
    if leadsWith pat (x :: xs) then rep ++ (x :: xs).drop pat.length
    else x :: replaceFirst pat rep xs

/-- Whether `pat` occurs as a contiguous substring of the string. -/
def occursIn (pat : JSString) : JSString → Bool
  | [] => leadsWith pat []
  | x :: xs => leadsWith pat (x :: xs) || occursIn pat xs

/-- Semantics of `s.trim()` (the JS whitespace class is wider than
`Char.isWhitespace`, but the difference is irrelevant to the properties
proved here, which only ever trim ASCII text). -/
def jsTrim (s : JSString) : JSString :=
  ((s.dropWhile Char.isWhitespace).reverse.dropWhile Char.isWhitespace).reverse

/-- Semantics of `a || b` where `a` is a possibly-absent string: `undefined`,
`null` and the empty string are falsy, any other string wins. -/
def jsOrString (x : Option JSString) (y : JSString) : JSString :=
  match x with
  | none => y
  | some s => if s = [] then y else s

theorem splitOnChar_ne_nil (c : Char) (s : List Char) : splitOnChar c s ≠ [] := by
  cases s with
  | nil => simp [splitOnChar]
  | cons x xs =>
    simp only [splitOnChar]
    split <;> simp

theorem splitOnChar_headI (c : Char) (s : List Char) :
    (splitOnChar c s).headI = s.takeWhile (fun x => !(x == c)) := by
  induction s with
  | nil => simp [splitOnChar]
  | cons x xs ih =>
    by_cases h : x = c
    · subst h
      simp [splitOnChar, List.takeWhile]
    · have hb : (x == c) = false := by simp [h]
      simp [splitOnChar, h, List.takeWhile, hb, ih]

theorem splitOnChar_no_occ (c : Char) (s : List Char) (h : c ∉ s) :
    splitOnChar c s = [s] := by
  induction s with
  | nil => rfl
  | cons x xs ih =>
    have hx : x ≠ c := fun hxc => h (hxc ▸ List.mem_cons_self x xs)
    have hxs : c ∉ xs := fun hc => h (List.mem_cons_of_mem x hc)
    simp [splitOnChar, hx, ih hxs]

theorem splitOnChar_append (c : Char) (a b : List Char) (h : c ∉ a) :
    splitOnChar c (a ++ c :: b) = a :: splitOnChar c b := by
  induction a with
  | nil => simp [splitOnChar]
  | cons y a2 ih =>
    have hy : y ≠ c := fun hyc => h (hyc ▸ List.mem_cons_self y a2)
    have ha2 : c ∉ a2 := fun hc => h (List.mem_cons_of_mem y hc)
    simp [splitOnChar, hy, ih ha2]

theorem get?_zero_of_ne_nil (l : List (List Char)) (h : l ≠ []) :
    l.get? 0 = some l.headI := by
  cases l with
  | nil => exact absurd rfl h
  | cons x xs => rfl

theorem leadsWith_iff (p s : JSString) : leadsWith p s = true ↔ ∃ t, p ++ t = s := by
  induction p generalizing s with
  | nil => simp [leadsWith]
  | cons x ps ih =>
    cases s with
    | nil =>
      simp [leadsWith]
    | cons y ys =>
      simp only [leadsWith, Bool.and_eq_true, beq_iff_eq, ih]
      constructor
      · rintro ⟨rfl, t, rfl⟩
        exact ⟨t, rfl⟩
      · rintro ⟨t, ht⟩
        have hx : x = y := by
          have := congrArg (fun l => List.headI l) ht
          simpa using this
        subst hx
        refine ⟨rfl, t, ?_⟩
        have := congrArg (fun l => List.tail l) ht
        simpa using this

theorem leadsWith_append (p t : JSString) : leadsWith p (p ++ t) = true :=
  (leadsWith_iff p (p ++ t)).mpr ⟨t, rfl⟩

theorem replaceFirst_leads (pat rep s : JSString) (h : leadsWith pat s = true) :
    replaceFirst pat rep s = rep ++ s.drop pat.length := by
  cases s <;> simp [replaceFirst, h]

theorem replaceFirst_at_occurrence (pat rep rest : JSString) :
    replaceFirst pat rep (pat ++ rest) = rep ++ rest := by
  rw [replaceFirst_leads pat rep (pat ++ rest) (leadsWith_append pat rest)]
  rw [List.drop_left]

theorem occursIn_mem (pat s : JSString) (h : occursIn pat s = true) :
    ∀ ch ∈ pat, ch ∈ s := by
  induction s with
  | nil =>
    intro ch hch
    simp only [occursIn] at h
    obtain ⟨t, ht⟩ := (leadsWith_iff pat []).mp h
    have : pat = [] := by
      cases pat with
      | nil => rfl
      | cons a as => simp at ht
    simp [this] at hch
  | cons x xs ih =>
    intro ch hch
    simp only [occursIn, Bool.or_eq_true] at h
    rcases h with h | h
    · obtain ⟨t, ht⟩ := (leadsWith_iff pat (x :: xs)).mp h
      rw [← ht]
      exact List.mem_append_left t hch
    · exact List.mem_cons_of_mem x (ih h ch hch)

theorem replaceFirst_no_occ (pat rep s : JSString) (h : occursIn pat s = false) :
    replaceFirst pat rep s = s := by
  induction s with
  | nil =>
    simp only [occursIn] at h
    simp [replaceFirst, h]
  | cons x xs ih =>
    simp only [occursIn, Bool.or_eq_false_iff] at h
    simp [replaceFirst, h.1, ih h.2]

theorem replaceFirst_bare (T rep name : JSString) (h : ':' ∉ name) :
    replaceFirst (T ++ [':']) rep name = name := by
  apply replaceFirst_no_occ
  cases hb : occursIn (T ++ [':']) name with
  | false => rfl
  | true =>
    exfalso
    exact h (occursIn_mem _ _ hb ':' (List.mem_append_right T (List.mem_singleton.mpr rfl)))

/-- A label as consumed by the handlers: src interface Label has name and
description; the description coming back from the GraphQL queries may be
absent (the handlers guard with a truthiness check and with a default of ""),
so it is modelled as optional. -/
structure Label where
  name : JSString
  description : Option JSString
deriving DecidableEq

/-- An article highlight as consumed by the handlers: only id and type are
read. -/
structure Note where
  id : JSString
  type : JSString
deriving DecidableEq

/-- The article record assembled by getArticle. -/
structure Article where
  id : JSString
  content : JSString
  title : JSString
  labels : List Label
  highlights : List Note
  existingNote : Option Note
deriving DecidableEq

/-- A label on the incoming webhook payload (id, name, color). -/
structure WebhookLabel where
  id : JSString
  name : JSString
  color : JSString
deriving DecidableEq

/-- The derived per-label action record (interface LabelAction in
src/api/annotate.ts). The action field is the result of a JS array index
that can be undefined, hence optional. -/
structure LabelAction where
  label : JSString
  replacedLabel : JSString
  processLabel : JSString
  action : Option JSString
  description : Option JSString
  prompts : List JSString
  done : Bool
deriving DecidableEq

/-- existingNote as computed in getArticle:
highlights.find(h => h.type === "NOTE"). -/
def articleExistingNote (highlights : List Note) : Option Note :=
  highlights.find? (fun h => h.type == jstr "NOTE")

/-- The classifier predicate from the handler default export:
label.name === annotateLabel or label.name.startsWith(annotateLabel + ":"). -/
def matchPred (annotateLabel : JSString) (name : JSString) : Bool :=
  name == annotateLabel || leadsWith (annotateLabel ++ [':']) name

/-- matchingLabels from the default export of src/api/annotate.ts (identical
in part_000): filter the webhook labels by matchPred, then map to names. -/
def matchingLabels (labels : List WebhookLabel) (annotateLabel : JSString) : List JSString :=
  (labels.filter (fun l => matchPred annotateLabel l.name)).map (fun l => l.name)

/-- getLabelDescription: the description of the first article label whose
name equals the given name. -/
def getLabelDescription (labelName : JSString) (labels : List Label) : Option JSString :=
  (labels.find? (fun l => l.name == labelName)).bind (fun l => l.description)

/-- The literal fallback prompt from getLabelAction. -/
def fallbackPrompt : JSString :=
  jstr "Return a tweet-length TL;DR of the following article."

/-- The three-level fallback chain of getLabelAction:
description || process.env OPENAI_PROMPT || literal fallback.
The environment variable is passed in as an optional parameter. -/
def promptWithFallback (description : Option JSString) (envPrompt : Option JSString) : JSString :=
  jsOrString description (jsOrString envPrompt fallbackPrompt)

/-- label.split(":")[1] as used for the action field of a LabelAction:
the JS index is undefined when the name has no colon. -/
def labelOperation (label : JSString) : Option JSString :=
  (splitOnChar ':' label).get? 1

/-- Default stringification of a JS object inside a template literal, as it
happens in the Existing note fragment of promptBodyArray, where the
existingNote object itself (not its text) is interpolated. -/
def jsObjectString : JSString := jstr "[object Object]"

/-- promptBodyArray from getLabelAction: the fixed four-slot fragment list.
When the article has no existing note the fourth slot is the empty string
(the source's ternary yields "" rather than omitting the entry). -/
def promptBodyArray (article : Article) (promptTemplate : JSString) : List JSString :=
  [promptTemplate,
   jstr "Article title: " ++ article.title,
   jstr "Article content: " ++ article.content,
   match article.existingNote with
   | some _ => jstr "Existing note: " ++ jsObjectString
   | none => []]

/-- getLabelAction from src/api/annotate.ts (part_000 is identical except
that its LabelAction record carries no done field): one LabelAction per
matching label name. -/
def getLabelAction (matchingLabelNames : List JSString) (article : Article)
    (annotateLabel : JSString) (envPrompt : Option JSString) : List LabelAction :=
  matchingLabelNames.map (fun label =>
    { label := label
      replacedLabel := replaceFirst (annotateLabel ++ [':']) (jstr "did:") label
      processLabel := (splitOnChar ':' label).headI
      action := labelOperation label
      description := getLabelDescription label article.labels
      prompts := promptBodyArray article
        (promptWithFallback (getLabelDescription label article.labels) envPrompt)
      done := false })

/-- The callback passed to labelActions.find in resolvedLabelActions of
src/api/annotate.ts lines 186-191. The arrow function has a block body
that evaluates the comparison but contains no return statement, so the
callback returns undefined, which is falsy: the predicate is constantly
false. The evaluated-and-discarded comparison is kept for fidelity. -/
def annotateTagsFindCallback (currentAction : JSString) (label : LabelAction) : Bool :=
  let _evaluatedAndDropped :=
    (label.action == some currentAction) && (label.done == false)
  false

/-- resolvedLabelActions from src/api/annotate.ts lines 186-191. -/
def resolvedLabelActions (currentAction : JSString) (labelActions : List LabelAction) :
    Option LabelAction :=
  labelActions.find? (annotateTagsFindCallback currentAction)

/-- resolvedLabelActions from src/unnamed/part_000 lines 380-392: the first
action whose action field equals currentAction, together with a found flag. -/
def resolvedLabelActionsV (currentAction : JSString) (myLabelAction : List LabelAction) :
    Bool × Option LabelAction :=
  let matchingAction := myLabelAction.find? (fun label => label.action == some currentAction)
  (matchingAction.isSome, matchingAction)

/-- The fragments kept by arrayToPromptGenerator in src/api/annotate.ts:
item !== null && item.trim() !== "". -/
def keptFragments (array : List (Option JSString)) : List JSString :=
  array.filterMap (fun item =>
    match item with
    | none => none
    | some s => if jsTrim s = [] then none else some s)

/-- arrayToPromptGenerator from src/api/annotate.ts lines 459-464 (and the
third variant in part_000): drop null and empty-after-trim fragments, prefix
each survivor with "- ", join with newline. -/
def arrayToPromptGenerator (array : List (Option JSString)) : JSString :=
  List.intercalate (jstr "\n") ((keptFragments array).map (fun item => jstr "- " ++ item))

/-- arrayToPromptGenerator from src/unnamed/part_000 lines 494-499 (the
verbose handler variant): only null fragments are dropped; empty strings are
kept and produce bare bullet lines. -/
def arrayToPromptGeneratorV (array : List (Option JSString)) : JSString :=
  List.intercalate (jstr "\n") ((array.filterMap id).map (fun item => jstr "- " ++ item))

/-- The generatedTags pipeline of the tags flow in src/api/annotate.ts lines
284-291: content?.trim().split newline, trim each line, keep lines that are
non-empty and not already an article label name. The whole result is
undefined when the completion content is null. -/
def generatedTags (content : Option JSString) (articleLabels : List Label) :
    Option (List JSString) :=
  content.map (fun c =>
    ((splitOnChar '\n' (jsTrim c)).map jsTrim).filter (fun tag =>
      !(tag == ([] : JSString)) && !(articleLabels.any (fun ex => ex.name == tag))))

/-- The empty-response branch of the tags flow in src/api/annotate.ts lines
293-299: when generatedTags is undefined or empty, respond 200 with an
informative body; otherwise the flow continues (modelled as none). -/
def tagsFlowEmptyBranch (content : Option JSString) (articleLabels : List Label) :
    Option (Nat × JSString) :=
  match generatedTags content articleLabels with
  | none => some (200, jstr "No new tags generated.")
  | some tags => if tags.length = 0 then some (200, jstr "No new tags generated.") else none

/-- The escaping applied to the annotation-flow completion text (lines
333-336): trim, double every backslash, escape every double quote. -/
def annotationEscape (s : JSString) : JSString :=
  ((jsTrim s).flatMap (fun c => if c = '\\' then ['\\', '\\'] else [c])).flatMap
    (fun c => if c = '"' then ['\\', '"'] else [c])

/-- The empty-response branch of the annotation flow, src/api/annotate.ts
lines 338-346 (identical in part_000 lines 348-356): when the escaped
response is undefined or empty, respond 500. -/
def annotationFlowEmptyBranch (content : Option JSString) : Option (Nat × JSString) :=
  match content.map annotationEscape with
  | none => some (500, jstr "No generated response from OpenAI.")
  | some r =>
    if r = [] then some (500, jstr "No generated response from OpenAI.") else none

/-- The empty-response branch of the tags flow in src/unnamed/part_000 lines
296-302: when the raw completion content is null or empty, respond 500. -/
def part000TagsFlowEmptyBranch (content : Option JSString) : Option (Nat × JSString) :=
  match content with
  | none => some (500, jstr "No response from OpenAI.")
  | some r => if r = [] then some (500, jstr "No response from OpenAI.") else none

/-- newLabels from the tags flow of src/api/annotate.ts lines 303-307:
existing article label names, then the generated tags, then the replacement
label of the dispatched action. -/
def newLabels (article : Article) (generated : List JSString) (replacedLabel : JSString) :
    List JSString :=
  article.labels.map (fun l => l.name) ++ generated ++ [replacedLabel]

/-- The labels binding built (and never used) by the third handler variant in
src/unnamed/part_000 lines 1167-1171. -/
def variant3UnusedLabels (articleLabels : List Label) (generated : List JSString)
    (didAction : JSString) : List JSString :=
  articleLabels.map (fun l => l.name) ++ generated ++ [didAction]

/-- The label list the third handler variant actually passes to
addLabelsToOmnivoreArticle at src/unnamed/part_000 lines 1173-1177: only the
generated tags (the labels binding above is left unused). -/
def variant3WrittenLabels (articleLabels : List Label) (generated : List JSString)
    (didAction : JSString) : List JSString :=
  generated

/-- The variables.input record of the highlight mutations (the optional-field
input type declared in both annotation functions). -/
structure HighlightInput where
  highlightId : Option JSString
  annotation : JSString
  type : Option JSString
  id : Option JSString
  shortId : Option JSString
  articleId : Option JSString
deriving DecidableEq

/-- Which GraphQL highlight mutation an annotation write issues. -/
inductive AnnotationCall where
  | updateHighlight (input : HighlightInput)
  | createHighlight (input : HighlightInput)
deriving DecidableEq

/-- The UpdateHighlight input built by updateAnnotationInOmnivoreArticle:
keyed by the existing note's id; no type, id, shortId or articleId fields. -/
def updateAnnotationInput ( annotation : JSString) (existingNote : Note) : HighlightInput :=
  { highlightId := some existingNote.id
    annotation := annotation
    type := none
    id := none
    shortId := none
    articleId := none }

/-- The CreateHighlight input built by addAnnotationToOmnivoreArticle: a NOTE
highlight with a freshly generated uuid (passed in here, since uuidv4 is
nondeterministic) and shortId = id.substring(0, 8). -/
def addAnnotationInput (uuid articleId annotation : JSString) : HighlightInput :=
  { highlightId := none
    annotation := annotation
    type := some (jstr "NOTE")
    id := some uuid
    shortId := some (uuid.take 8)
    articleId := some articleId }

/-- applyAnnotationToOmnivoreArticle: update the existing note when there is
one, otherwise create a new NOTE highlight. -/
def applyAnnotationToOmnivoreArticle (uuid articleId annotation : JSString)
    (existingNote : Option Note) : AnnotationCall :=
  match existingNote with
  | some n => AnnotationCall.updateHighlight (updateAnnotationInput annotation n)
  | none => AnnotationCall.createHighlight (addAnnotationInput uuid articleId annotation)

/-- The filter inside labelsToPrompt of src/api/annotate.ts lines 480-482:
keep labels whose name.split(":")[0] differs from the annotate label. -/
def labelsWithoutAnnotationLabel (labels : List Label) (annotateLabel : JSString) :
    List Label :=
  labels.filter (fun l => !((splitOnChar ':' l.name).headI == annotateLabel))

/-- The filter inside labelsToPrompt of src/unnamed/part_000 lines 550-552:
keep labels whose name does not start with the annotate label. -/
def labelsWithoutAnnotationLabelV (labels : List Label) (annotateLabel : JSString) :
    List Label :=
  labels.filter (fun l => !(leadsWith annotateLabel l.name))

/-- JSON string escaping as done by JSON.stringify for the characters that
can occur here (backslash and double quote; control characters are not
modelled, no property proved depends on them). -/
def jsonEscape (s : JSString) : JSString :=
  s.flatMap (fun c =>
    if c = '"' then ['\\', '"'] else if c = '\\' then ['\\', '\\'] else [c])

/-- One element of the JSON array built in the returnJson branch of
labelsToPrompt: an object with the label's name and description || "". -/
def jsonLabelObject (l : Label) : JSString :=
  jstr "\x7b\"name\":\"" ++ jsonEscape l.name ++ jstr "\",\"description\":\"" ++
    jsonEscape (jsOrString l.description []) ++ jstr "\"\x7d"

/-- JSON.stringify of the label array (compact form, as called without an
indent argument in src/api/annotate.ts). -/
def jsonStringifyLabels (ls : List Label) : JSString :=
  jstr "[" ++ List.intercalate (jstr ",") (ls.map jsonLabelObject) ++ jstr "]"

/-- One element of the two-space-indented JSON array built by the verbose
variant, which stringifies with a two-space indent argument. -/
def jsonLabelObjectIndent (l : Label) : JSString :=
  jstr "  \x7b\n    \"name\": \"" ++ jsonEscape l.name ++
    jstr "\",\n    \"description\": \"" ++ jsonEscape (jsOrString l.description []) ++
    jstr "\"\n  \x7d"

/-- JSON.stringify of the label array with indent 2, as called by the
verbose variant in src/unnamed/part_000. -/
def jsonStringifyLabelsIndent (ls : List Label) : JSString :=
  match ls with
  | [] => jstr "[]"
  | _ =>
    jstr "[\n" ++ List.intercalate (jstr ",\n") (ls.map jsonLabelObjectIndent) ++ jstr "\n]"

/-- The string emitted by labelsToPrompt of src/api/annotate.ts once the
kept labels are known: the JSON branch returns the bare JSON text (without
the prePrompt), the other branch prefixes prePrompt to the comma-joined
names. -/
def renderLabels (kept : List Label) (prePrompt : JSString) (returnJson : Bool) : JSString :=
  if returnJson then jsonStringifyLabels kept
  else prePrompt ++ ' ' :: List.intercalate (jstr ", ") (kept.map (fun l => l.name))

/-- labelsToPrompt from src/api/annotate.ts lines 471-496: null on an empty
input list, otherwise the rendering of the labels that survive the
trigger-namespace filter. -/
def labelsToPrompt (labels : List Label) (annotateLabel : JSString)
    (prePrompt : JSString) (returnJson : Bool) : Option JSString :=
  if labels = [] then none
  else some (renderLabels (labelsWithoutAnnotationLabel labels annotateLabel)
    prePrompt returnJson)

/-- The string emitted by the verbose labelsToPrompt once the kept labels
are known: both branches prefix prePrompt. -/
def renderLabelsV (kept : List Label) (prePrompt : JSString) (returnJson : Bool) : JSString :=
  if returnJson then prePrompt ++ ' ' :: jsonStringifyLabelsIndent kept
  else prePrompt ++ ' ' :: List.intercalate (jstr ", ") (kept.map (fun l => l.name))

/-- labelsToPrompt from src/unnamed/part_000 lines 539-573: null on an empty
input list, null again when no label survives the filter, otherwise the
rendering of the survivors. -/
def labelsToPromptV (labels : List Label) (annotateLabel : JSString)
    (prePrompt : JSString) (returnJson : Bool) : Option JSString :=
  if labels = [] then none
  else
    if labelsWithoutAnnotationLabelV labels annotateLabel = [] then none
    else some (renderLabelsV (labelsWithoutAnnotationLabelV labels annotateLabel)
      prePrompt returnJson)

/-- A resolved action for a do:summary label, used as dispatch-test data. -/
def c1SummaryAction : LabelAction :=
  { label := jstr "do:summary"
    replacedLabel := jstr "did:summary"
    processLabel := jstr "do"
    action := some (jstr "summary")
    description := none
    prompts := []
    done := false }

/-- A resolved action for a do:tags label, used as dispatch-test data. -/
def c1TagsAction : LabelAction :=
  { label := jstr "do:tags"
    replacedLabel := jstr "did:tags"
    processLabel := jstr "do"
    action := some (jstr "tags")
    description := none
    prompts := []
    done := false }

/-- The kept-then-prefixed bullet lines described by the spec of the prompt
assembler: drop null fragments and fragments that are empty after trimming,
prefix the survivors with a dash and a space. -/
def assembleSpecKept : List (Option JSString) → List JSString
  | [] => []
  | none :: rest => assembleSpecKept rest
  | some s :: rest =>
    if jsTrim s = [] then assembleSpecKept rest
    else (jstr "- " ++ s) :: assembleSpecKept rest

/-- The prompt assembler as described by the spec: bullet lines joined by a
single newline. -/
def assembleSpec (fragments : List (Option JSString)) : JSString :=
  List.intercalate (jstr "\n") (assembleSpecKept fragments)

/-- The concrete fragment list of the spec's assembler example. -/
def c2ExampleInput : List (Option JSString) :=
  [some (jstr "a"), none, some (jstr ""), some (jstr "b")]

theorem keptFragments_cons_some (s : JSString) (rest : List (Option JSString)) :
    keptFragments (some s :: rest) =
      if jsTrim s = [] then keptFragments rest else s :: keptFragments rest := by
  by_cases h : jsTrim s = [] <;> simp [keptFragments, List.filterMap_cons, h]

theorem keptFragments_map (l : List (Option JSString)) :
    (keptFragments l).map (fun item => jstr "- " ++ item) = assembleSpecKept l := by
  induction l with
  | nil => rfl
  | cons x rest ih =>
    cases x with
    | none => exact ih
    | some s =>
      by_cases h : jsTrim s = []
      · rw [keptFragments_cons_some, if_pos h, ih]
        simp [assembleSpecKept, h]
      · rw [keptFragments_cons_some, if_neg h]
        simp only [List.map_cons]
        rw [ih]
        simp [assembleSpecKept, h]

/-- Claim C1: the dispatch step is meant to select tag generation whenever
some action has operation tags. In src/unnamed/part_000 (resolvedLabelActionsV
here) this holds: the first action with operation tags is found regardless of
position, other actions being ignored. In src/api/annotate.ts the find
callback of resolvedLabelActions has a block body with no return statement,
so it yields undefined (falsy) for every action and the dispatch never
selects tag generation: the whole tags branch is dead code, contradicting
both the claim and the working variant. -/
theorem c1_tags_dispatch :
    (∀ (currentAction : JSString) (acts : List LabelAction),
        resolvedLabelActions currentAction acts = none) ∧
    resolvedLabelActions (jstr "tags") [c1SummaryAction, c1TagsAction] = none ∧
    resolvedLabelActionsV (jstr "tags") [c1SummaryAction, c1TagsAction] =
      (true, some c1TagsAction) := by
  have h1 : ∀ (currentAction : JSString) (acts : List LabelAction),
      resolvedLabelActions currentAction acts = none := by
    intro ca acts
    simp [resolvedLabelActions, annotateTagsFindCallback]
  exact ⟨h1, h1 _ _, by decide⟩

/-- Claim C2 counterexample: the prompt assembler of the verbose handler
variant (src/unnamed/part_000 lines 494-499) keeps fragments that are empty
after trimming, so on the spec's own example it produces a bare bullet line
instead of the claimed two-line result. -/
theorem c2_counterexample :
    arrayToPromptGeneratorV c2ExampleInput = jstr "- a\n- \n- b" ∧
    ¬ arrayToPromptGeneratorV c2ExampleInput = jstr "- a\n- b" := by decide

/-- Claim C2 (amended): the assembler of src/api/annotate.ts drops null
fragments and fragments empty after trimming, prefixes each survivor with
a dash and space and joins with a single newline, matching the spec-side
assembler on every input and giving the claimed result on the example;
the verbose variant in part_000 drops only null fragments and yields a bare
bullet line for the empty fragment on the same example. -/
theorem c2_prompt_assembler :
    (∀ fragments, arrayToPromptGenerator fragments = assembleSpec fragments) ∧
    arrayToPromptGenerator c2ExampleInput = jstr "- a\n- b" ∧
    arrayToPromptGeneratorV c2ExampleInput = jstr "- a\n- \n- b" := by
  refine ⟨?_, by decide, by decide⟩
  intro fragments
  unfold arrayToPromptGenerator assembleSpec
  rw [keptFragments_map]

/-- Claim C4 counterexample: the operation derived from a matching label name
is label.split(":")[1], so for a name with two colons it is the segment
between the first and second colon, not everything after the first colon,
and for the bare trigger it is undefined (absent), not the empty string. -/
theorem c4_counterexample :
    labelOperation (jstr "do:a:b") = some (jstr "a") ∧
    ¬ labelOperation (jstr "do:a:b") = some (jstr "a:b") ∧
    labelOperation (jstr "do") = none ∧
    ¬ labelOperation (jstr "do") = some (jstr "") := by decide

/-- Claim C4 (amended): for every matching label name, the resolver derives
the operation as the second colon-separated segment of the name (the
substring strictly between the first colon and the following colon, if any),
and the operation is absent (undefined), not the empty string, when the name
contains no colon. -/
theorem c4_operation_segment (a b : JSString) :
    (':' ∉ a → labelOperation a = none) ∧
    (':' ∉ a → labelOperation (a ++ ':' :: b) =
      some (b.takeWhile (fun c => !(c == ':')))) := by
  constructor
  · intro h
    unfold labelOperation
    rw [splitOnChar_no_occ ':' a h]
    rfl
  · intro h
    unfold labelOperation
    rw [splitOnChar_append ':' a b h]
    show (splitOnChar ':' b).get? 0 = _
    rw [get?_zero_of_ne_nil _ (splitOnChar_ne_nil ':' b), splitOnChar_headI]

/-- Witness for c4_operation_segment at the name do:a:b. -/
theorem c4_operation_segment_witness :
    labelOperation (jstr "do" ++ ':' :: jstr "a:b") =
      some ((jstr "a:b").takeWhile (fun c => !(c == ':'))) :=
  (c4_operation_segment (jstr "do") (jstr "a:b")).2 (by decide)

/-- Claim C5: classification returns exactly the names of webhook labels
whose name equals the trigger or starts with the trigger followed by a
colon, in input order and without deduplication (the result is the name-map
of the order-preserving filter), and the result is empty precisely when no
label qualifies. -/
theorem c5_classify (L : List WebhookLabel) (T : JSString) :
    matchingLabels L T = (L.map (fun l => l.name)).filter (matchPred T) ∧
    (∀ n : JSString, matchPred T n = true ↔ (n = T ∨ ∃ rest, n = T ++ ':' :: rest)) ∧
    (matchingLabels L T = [] ↔ ∀ l ∈ L, matchPred T l.name = false) := by
  refine ⟨?_, ?_, ?_⟩
  · show matchingLabels L T = List.filter (matchPred T) (List.map (fun l => l.name) L)
    rw [List.filter_map]
    rfl
  · intro n
    unfold matchPred
    simp only [Bool.or_eq_true, beq_iff_eq, leadsWith_iff]
    constructor
    · rintro (rfl | ⟨t, rfl⟩)
      · exact Or.inl rfl
      · exact Or.inr ⟨t, by rw [List.append_assoc]; rfl⟩
    · rintro (rfl | ⟨rest, rfl⟩)
      · exact Or.inl rfl
      · exact Or.inr ⟨rest, by rw [List.append_assoc]; rfl⟩
  · unfold matchingLabels
    rw [List.map_eq_nil_iff, List.filter_eq_nil_iff]
    simp

/-- Claim C3 counterexample: on a null completion response, the annotation
flow and the part_000 tags flow both return HTTP 500, a 5xx status,
contradicting the claim that both flows respond with a non-5xx status. -/
theorem c3_counterexample :
    annotationFlowEmptyBranch none =
      some (500, jstr "No generated response from OpenAI.") ∧
    part000TagsFlowEmptyBranch none = some (500, jstr "No response from OpenAI.") :=
  ⟨rfl, rfl⟩

/-- Claim C3 (amended): on a null or effectively-empty completion response no
flow throws; each returns an informative response, but only the tags flow of
src/api/annotate.ts uses a non-5xx status (200, No new tags generated): the
annotation flow returns 500 (No generated response from OpenAI.) and the
part_000 tags flow returns 500 (No response from OpenAI.) on a null or empty
response. -/
theorem c3_empty_completion (content : Option JSString) (articleLabels : List Label) :
    (content = none →
      tagsFlowEmptyBranch content articleLabels =
        some (200, jstr "No new tags generated.") ∧
      annotationFlowEmptyBranch content =
        some (500, jstr "No generated response from OpenAI.") ∧
      part000TagsFlowEmptyBranch content =
        some (500, jstr "No response from OpenAI.")) ∧
    (∀ c, content = some c → jsTrim c = [] →
      tagsFlowEmptyBranch content articleLabels =
        some (200, jstr "No new tags generated.") ∧
      annotationFlowEmptyBranch content =
        some (500, jstr "No generated response from OpenAI.")) ∧
    (content = some [] →
      part000TagsFlowEmptyBranch content = some (500, jstr "No response from OpenAI.")) := by
  refine ⟨?_, ?_, ?_⟩
  · rintro rfl
    exact ⟨rfl, rfl, rfl⟩
  · rintro c rfl h
    have hg : generatedTags (some c) articleLabels = some [] := by
      simp only [generatedTags, Option.map_some']
      rw [h]
      rfl
    have he : annotationEscape c = [] := by
      unfold annotationEscape
      rw [h]
      simp
    constructor
    · unfold tagsFlowEmptyBranch
      rw [hg]
      rfl
    · simp [annotationFlowEmptyBranch, he]
  · rintro rfl
    rfl

/-- Witness for c3_empty_completion at a null completion response. -/
theorem c3_empty_completion_witness :
    tagsFlowEmptyBranch none [] = some (200, jstr "No new tags generated.") ∧
    annotationFlowEmptyBranch none =
      some (500, jstr "No generated response from OpenAI.") ∧
    part000TagsFlowEmptyBranch none = some (500, jstr "No response from OpenAI.") :=
  (c3_empty_completion none []).1 rfl

/-- A concrete article with no existing note, used to exercise the resolver. -/
def c6Article : Article :=
  { id := jstr "id1"
    content := jstr "C"
    title := jstr "T"
    labels := []
    highlights := []
    existingNote := none }

/-- Claim C6 counterexample: for an article without an existing note, the
resolver's prompt list is not the three-element list the claim's
falsy-fragments-omitted reading predicts: the note slot is present as the
empty string, giving four fragments. -/
theorem c6_counterexample :
    (getLabelAction [ jstr "do"] c6Article (jstr "do") none).map (fun a => a.prompts) =
      [[fallbackPrompt, jstr "Article title: T", jstr "Article content: C", []]] ∧
    ([] : JSString) ∈ promptBodyArray c6Article fallbackPrompt := by decide

/-- Claim C6 (amended): the resolver yields exactly one action per matching
name in input order; each action's replacement label replaces only the first
occurrence of the trigger-colon pattern with did-colon (a leading occurrence
yields did: plus the remainder, and a name without a colon, in particular the
bare trigger, is left unchanged); each action's prompt list always has the
four slots template, title, content, note in that order, the note slot being
the empty string (not omitted) when the article has no existing note. -/
theorem c6_resolver (names : List JSString) (article : Article) (trigger : JSString)
    (env : Option JSString) :
    ((getLabelAction names article trigger env).map (fun a => a.label) = names) ∧
    (∀ a ∈ getLabelAction names article trigger env,
        a.replacedLabel = replaceFirst (trigger ++ [':']) (jstr "did:") a.label ∧
        a.prompts = promptBodyArray article
          (promptWithFallback (getLabelDescription a.label article.labels) env) ∧
        a.prompts.length = 4 ∧
        (article.existingNote = none → a.prompts.get? 3 = some ([] : JSString))) ∧
    (∀ rest : JSString,
        replaceFirst (trigger ++ [':']) (jstr "did:") (trigger ++ ':' :: rest) =
          jstr "did:" ++ rest) ∧
    (∀ name : JSString, ':' ∉ name →
        replaceFirst (trigger ++ [':']) (jstr "did:") name = name) := by
  refine ⟨?_, ?_, ?_, ?_⟩
  · induction names with
    | nil => rfl
    | cons n rest ih =>
      simp only [getLabelAction, List.map_cons] at ih ⊢
      rw [ih]
  · intro a ha
    simp only [getLabelAction, List.mem_map] at ha
    obtain ⟨name, hn, rfl⟩ := ha
    refine ⟨rfl, rfl, rfl, ?_⟩
    intro hnone
    simp [promptBodyArray, hnone]
  · intro rest
    have hsplit : trigger ++ ':' :: rest = (trigger ++ [':']) ++ rest := by
      rw [List.append_assoc]
      rfl
    rw [hsplit, replaceFirst_at_occurrence]
  · intro name h
    exact replaceFirst_bare trigger (jstr "did:") name h

/-- Witness for c6_resolver: a do:x label resolves to one action carrying the
name, and the bare trigger is left unchanged by the replacement. -/
theorem c6_resolver_witness :
    ((getLabelAction [ jstr "do:x"] c6Article (jstr "do") none).map (fun a => a.label) =
      [ jstr "do:x"]) ∧
    replaceFirst (jstr "do" ++ [':']) (jstr "did:") (jstr "do") = jstr "do" :=
  ⟨(c6_resolver [ jstr "do:x"] c6Article (jstr "do") none).1,
   (c6_resolver [ jstr "do:x"] c6Article (jstr "do") none).2.2.2 (jstr "do") (by decide)⟩

/-- The article label list of the write-back scenario: one existing label x. -/
def c7ArticleLabels : List Label := [{ name := jstr "x", description := none }]

/-- The article of the write-back scenario. -/
def c7Article : Article :=
  { id := jstr "a"
    content := []
    title := []
    labels := c7ArticleLabels
    highlights := []
    existingNote := none }

/-- Claim C7: in src/api/annotate.ts the written label set is, as a set, the
union of existing names, generated tags, and the replacement label, and the
list itself is not deduplicated (a replacement colliding with an existing
name appears twice). The third part_000 variant however passes only the
generated tags to the write-back, leaving its assembled labels binding
unused: at the failing input (existing x, generated y, didAction did:tags)
it writes the set containing y alone instead of the claimed union. -/
theorem c7_writeback_labels :
    (∀ (article : Article) (generated : List JSString) (replacedLabel : JSString),
        (newLabels article generated replacedLabel).toFinset =
          ((article.labels.map (fun l => l.name)).toFinset ∪ generated.toFinset) ∪
            {replacedLabel}) ∧
    ¬ (newLabels c7Article [] (jstr "x")).Nodup ∧
    generatedTags (some (jstr "y")) c7ArticleLabels = some [ jstr "y"] ∧
    variant3WrittenLabels c7ArticleLabels [ jstr "y"] (jstr "did:tags") = [ jstr "y"] ∧
    variant3UnusedLabels c7ArticleLabels [ jstr "y"] (jstr "did:tags") =
      [ jstr "x", jstr "y", jstr "did:tags"] ∧
    (variant3WrittenLabels c7ArticleLabels [ jstr "y"] (jstr "did:tags")).toFinset ≠
      (variant3UnusedLabels c7ArticleLabels [ jstr "y"] (jstr "did:tags")).toFinset := by
  refine ⟨?_, by decide, by decide, by decide, by decide, by decide⟩
  intro article generated replacedLabel
  unfold newLabels
  rw [List.toFinset_append, List.toFinset_append]
  simp

/-- Witness for c7_writeback_labels: the union identity evaluated at the
concrete scenario. -/
theorem c7_writeback_labels_witness :
    (newLabels c7Article [ jstr "y"] (jstr "did:tags")).toFinset =
      ((c7Article.labels.map (fun l => l.name)).toFinset ∪ [ jstr "y"].toFinset) ∪
        {jstr "did:tags"} :=
  c7_writeback_labels.1 c7Article [ jstr "y"] (jstr "did:tags")

/-- Webhook labels used to exercise the classifier. -/
def c5Labels : List WebhookLabel :=
  [{ id := jstr "1", name := jstr "do:tags", color := jstr "#fff" },
   { id := jstr "2", name := jstr "x", color := jstr "#0f0" }]

/-- Witness for c5_classify: the classifier evaluated on a concrete payload. -/
theorem c5_classify_witness :
    matchingLabels c5Labels (jstr "do") =
      (c5Labels.map (fun l => l.name)).filter (matchPred (jstr "do")) :=
  (c5_classify c5Labels (jstr "do")).1

/-- The article label carrying a non-empty description in the fallback
scenario. -/
def c8Labels : List Label :=
  [{ name := jstr "do:x", description := some (jstr "Describe it") }]

/-- Claim C8: the prompt template is the three-level first-non-empty fallback
chain: the description of the article label with the exact matching name if
non-empty, else the configured default prompt from the environment if
non-empty, else the literal tweet-length TLDR fallback. -/
theorem c8_prompt_fallback (labelName : JSString) (labels : List Label)
    (env : Option JSString) :
    (∀ d, getLabelDescription labelName labels = some d → d ≠ [] →
        promptWithFallback (getLabelDescription labelName labels) env = d) ∧
    (∀ e, (getLabelDescription labelName labels = none ∨
           getLabelDescription labelName labels = some []) →
        env = some e → e ≠ [] →
        promptWithFallback (getLabelDescription labelName labels) env = e) ∧
    ((getLabelDescription labelName labels = none ∨
      getLabelDescription labelName labels = some []) →
        (env = none ∨ env = some []) →
        promptWithFallback (getLabelDescription labelName labels) env = fallbackPrompt) ∧
    (∀ l, labels.find? (fun x => x.name == labelName) = some l →
        getLabelDescription labelName labels = l.description) := by
  refine ⟨?_, ?_, ?_, ?_⟩
  · intro d hd hne
    rw [hd]
    simp [promptWithFallback, jsOrString, hne]
  · intro e hdesc henv hne
    rcases hdesc with h | h <;>
      rw [h, henv] <;> simp [promptWithFallback, jsOrString, hne]
  · intro hdesc henv
    rcases hdesc with h | h <;> rcases henv with h2 | h2 <;>
      rw [h, h2] <;> simp [promptWithFallback, jsOrString]
  · intro l hl
    unfold getLabelDescription
    rw [hl]
    rfl

/-- Witness for c8_prompt_fallback: a non-empty label description wins over a
non-empty environment default. -/
theorem c8_prompt_fallback_witness :
    promptWithFallback (getLabelDescription (jstr "do:x") c8Labels)
      (some (jstr "E")) = jstr "Describe it" :=
  (c8_prompt_fallback (jstr "do:x") c8Labels (some (jstr "E"))).1
    (jstr "Describe it") (by decide) (by decide)

/-- Claim C9: with an existing NOTE highlight the annotation write issues the
update mutation keyed by that note's id and never the create mutation; with
none it issues the create mutation whose input carries the fresh uuid as id,
its first eight characters as shortId, and the NOTE type. -/
theorem c9_note_upsert (uuid articleId annotation : JSString) (n : Note) :
    applyAnnotationToOmnivoreArticle uuid articleId annotation (some n) =
      AnnotationCall.updateHighlight (updateAnnotationInput annotation n) ∧
    (updateAnnotationInput annotation n).highlightId = some n.id ∧
    (∀ i : HighlightInput,
        applyAnnotationToOmnivoreArticle uuid articleId annotation (some n) ≠
          AnnotationCall.createHighlight i) ∧
    applyAnnotationToOmnivoreArticle uuid articleId annotation none =
      AnnotationCall.createHighlight (addAnnotationInput uuid articleId annotation) ∧
    (addAnnotationInput uuid articleId annotation).id = some uuid ∧
    (addAnnotationInput uuid articleId annotation).shortId = some (uuid.take 8) ∧
    (addAnnotationInput uuid articleId annotation).type = some (jstr "NOTE") := by
  refine ⟨rfl, rfl, ?_, rfl, rfl, rfl, rfl⟩
  intro i h
  simp [applyAnnotationToOmnivoreArticle] at h

/-- Witness for c9_note_upsert at a concrete note and uuid. -/
theorem c9_note_upsert_witness :
    applyAnnotationToOmnivoreArticle (jstr "0123456789abcdef") (jstr "art")
        (jstr "text") (some { id := jstr "h1", type := jstr "NOTE" }) =
      AnnotationCall.updateHighlight (updateAnnotationInput (jstr "text")
        { id := jstr "h1", type := jstr "NOTE" }) ∧
    (addAnnotationInput (jstr "0123456789abcdef") (jstr "art") (jstr "text")).shortId =
      some ((jstr "0123456789abcdef").take 8) :=
  ⟨(c9_note_upsert (jstr "0123456789abcdef") (jstr "art") (jstr "text")
      { id := jstr "h1", type := jstr "NOTE" }).1,
   (c9_note_upsert (jstr "0123456789abcdef") (jstr "art") (jstr "text")
      { id := jstr "h1", type := jstr "NOTE" }).2.2.2.2.2.1⟩

/-- Claim C10: both taxonomy-prompt builders return null on an empty label
list; the labels surviving the filter are exactly the non-trigger-namespace
labels (part before the first colon differs from the trigger in
src/api/annotate.ts; name does not start with the trigger in the verbose
variant), and the emitted prompt is rendered from exactly that survivor
list, so no non-trigger label is dropped. -/
theorem c10_taxonomy (labels : List Label) (T prePrompt : JSString) (returnJson : Bool) :
    (labels = [] → labelsToPrompt labels T prePrompt returnJson = none ∧
        labelsToPromptV labels T prePrompt returnJson = none) ∧
    (∀ l ∈ labels,
        (l ∈ labelsWithoutAnnotationLabel labels T ↔
          l.name.takeWhile (fun c => !(c == ':')) ≠ T)) ∧
    (∀ l ∈ labels,
        (l ∈ labelsWithoutAnnotationLabelV labels T ↔ ¬ ∃ t, T ++ t = l.name)) ∧
    (labels ≠ [] →
        labelsToPrompt labels T prePrompt returnJson =
          some (renderLabels (labelsWithoutAnnotationLabel labels T) prePrompt returnJson)) ∧
    (labels ≠ [] → labelsWithoutAnnotationLabelV labels T ≠ [] →
        labelsToPromptV labels T prePrompt returnJson =
          some (renderLabelsV (labelsWithoutAnnotationLabelV labels T)
            prePrompt returnJson)) := by
  refine ⟨?_, ?_, ?_, ?_, ?_⟩
  · rintro rfl
    exact ⟨rfl, rfl⟩
  · intro l hl
    unfold labelsWithoutAnnotationLabel
    rw [List.mem_filter]
    simp [hl, splitOnChar_headI]
  · intro l hl
    unfold labelsWithoutAnnotationLabelV
    rw [List.mem_filter]
    constructor
    · rintro ⟨-, hkeep⟩ ⟨t, ht⟩
      have hlt : leadsWith T l.name = true := (leadsWith_iff T l.name).mpr ⟨t, ht⟩
      rw [hlt] at hkeep
      simp at hkeep
    · intro hno
      refine ⟨hl, ?_⟩
      cases hlw : leadsWith T l.name with
      | false => simp [hlw]
      | true => exact absurd ((leadsWith_iff T l.name).mp hlw) hno
  · intro h
    unfold labelsToPrompt
    rw [if_neg h]
  · intro h h2
    unfold labelsToPromptV
    rw [if_neg h, if_neg h2]

/-- Labels used to exercise the taxonomy-prompt builder: one ordinary label
and one trigger-namespace label. -/
def c10Labels : List Label :=
  [{ name := jstr "k", description := none },
   { name := jstr "do:tags", description := none }]

/-- Witness for c10_taxonomy: the builder evaluated on a concrete list keeps
the ordinary label and renders the survivors. -/
theorem c10_taxonomy_witness :
    labelsToPrompt c10Labels (jstr "do") (jstr "Existing article tags: ") true =
      some (renderLabels (labelsWithoutAnnotationLabel c10Labels (jstr "do"))
        (jstr "Existing article tags: ") true) ∧
    ({ name := jstr "k", description := none } : Label) ∈
      labelsWithoutAnnotationLabel c10Labels (jstr "do") :=
  ⟨(c10_taxonomy c10Labels (jstr "do") (jstr "Existing article tags: ") true).2.2.2.1
      (by decide),
   ((c10_taxonomy c10Labels (jstr "do") (jstr "Existing article tags: ") true).2.1
      { name := jstr "k", description := none } (by decide)).mpr (by decide)⟩
